import Mathlib

/-!
Verification of the column-major 4x4 matrix algebra and the per-frame
matrix composition of GLprimer (src/GLprimer/GLprimer.cpp).

Matrices are the flat 16-element arrays of the source, embedded as
functions `Fin 16 → ℝ` (column-major: column c, row r at flat index
c*4+r).  The C++ `float` scalars are embedded as real numbers.  Each
definition below transliterates one source function or one per-frame
computation of the render loop in `main`.
-/

noncomputable section

/-- Flat 16-element column-major matrix, as in `std::array<float, 16>`. -/
abbrev Mat := Fin 16 → ℝ

/-- Homogeneous 4-component column vector. -/
abbrev Vec4 := Fin 4 → ℝ

/-- Transliteration of `mat4mult` (GLprimer.cpp lines 90-114): the sixteen
entry formulas are copied verbatim from the source.  The final catch-all
branch is dead code: an index `i : Fin 16` always has `i.val < 16`. -/
def mat4mult (m1 m2 : Mat) : Mat := fun i =>
  match i.val with
  | 0 => m1 0 * m2 0 + m1 4 * m2 1 + m1 8 * m2 2 + m1 12 * m2 3
  | 1 => m1 1 * m2 0 + m1 5 * m2 1 + m1 9 * m2 2 + m1 13 * m2 3
  | 2 => m1 2 * m2 0 + m1 6 * m2 1 + m1 10 * m2 2 + m1 14 * m2 3
  | 3 => m1 3 * m2 0 + m1 7 * m2 1 + m1 11 * m2 2 + m1 15 * m2 3
  | 4 => m1 0 * m2 4 + m1 4 * m2 5 + m1 8 * m2 6 + m1 12 * m2 7
  | 5 => m1 1 * m2 4 + m1 5 * m2 5 + m1 9 * m2 6 + m1 13 * m2 7
  | 6 => m1 2 * m2 4 + m1 6 * m2 5 + m1 10 * m2 6 + m1 14 * m2 7
  | 7 => m1 3 * m2 4 + m1 7 * m2 5 + m1 11 * m2 6 + m1 15 * m2 7
  | 8 => m1 0 * m2 8 + m1 4 * m2 9 + m1 8 * m2 10 + m1 12 * m2 11
  | 9 => m1 1 * m2 8 + m1 5 * m2 9 + m1 9 * m2 10 + m1 13 * m2 11
  | 10 => m1 2 * m2 8 + m1 6 * m2 9 + m1 10 * m2 10 + m1 14 * m2 11
  | 11 => m1 3 * m2 8 + m1 7 * m2 9 + m1 11 * m2 10 + m1 15 * m2 11
  | 12 => m1 0 * m2 12 + m1 4 * m2 13 + m1 8 * m2 14 + m1 12 * m2 15
  | 13 => m1 1 * m2 12 + m1 5 * m2 13 + m1 9 * m2 14 + m1 13 * m2 15
  | 14 => m1 2 * m2 12 + m1 6 * m2 13 + m1 10 * m2 14 + m1 14 * m2 15
  | 15 => m1 3 * m2 12 + m1 7 * m2 13 + m1 11 * m2 14 + m1 15 * m2 15
  | _ => 0

/-- Transliteration of `mat4identity` (lines 116-122). -/
def mat4identity : Mat := fun i =>
  match i.val with
  | 0 => 1 | 1 => 0 | 2 => 0 | 3 => 0
  | 4 => 0 | 5 => 1 | 6 => 0 | 7 => 0
  | 8 => 0 | 9 => 0 | 10 => 1 | 11 => 0
  | 12 => 0 | 13 => 0 | 14 => 0 | 15 => 1
  | _ => 0

/-- Transliteration of `mat4rotx` (lines 123-131). -/
def mat4rotx (angle : ℝ) : Mat := fun i =>
  match i.val with
  | 0 => 1 | 1 => 0 | 2 => 0 | 3 => 0
  | 4 => 0 | 5 => Real.cos angle | 6 => Real.sin angle | 7 => 0
  | 8 => 0 | 9 => -Real.sin angle | 10 => Real.cos angle | 11 => 0
  | 12 => 0 | 13 => 0 | 14 => 0 | 15 => 1
  | _ => 0

/-- Transliteration of `mat4roty` (lines 132-140). -/
def mat4roty (angle : ℝ) : Mat := fun i =>
  match i.val with
  | 0 => Real.cos angle | 1 => 0 | 2 => Real.sin angle | 3 => 0
  | 4 => 0 | 5 => 1 | 6 => 0 | 7 => 0
  | 8 => -Real.sin angle | 9 => 0 | 10 => Real.cos angle | 11 => 0
  | 12 => 0 | 13 => 0 | 14 => 0 | 15 => 1
  | _ => 0

/-- Transliteration of `mat4rotz` (lines 141-149). -/
def mat4rotz (angle : ℝ) : Mat := fun i =>
  match i.val with
  | 0 => Real.cos angle | 1 => Real.sin angle | 2 => 0 | 3 => 0
  | 4 => -Real.sin angle | 5 => Real.cos angle | 6 => 0 | 7 => 0
  | 8 => 0 | 9 => 0 | 10 => 1 | 11 => 0
  | 12 => 0 | 13 => 0 | 14 => 0 | 15 => 1
  | _ => 0

/-- Transliteration of `mat4scale` (lines 150-156). -/
def mat4scale (scale : ℝ) : Mat := fun i =>
  match i.val with
  | 0 => scale | 1 => 0 | 2 => 0 | 3 => 0
  | 4 => 0 | 5 => scale | 6 => 0 | 7 => 0
  | 8 => 0 | 9 => 0 | 10 => scale | 11 => 0
  | 12 => 0 | 13 => 0 | 14 => 0 | 15 => 1
  | _ => 0

/-- Transliteration of `mat4translate` (lines 157-163). -/
def mat4translate (x y z : ℝ) : Mat := fun i =>
  match i.val with
  | 0 => 1 | 1 => 0 | 2 => 0 | 3 => 0
  | 4 => 0 | 5 => 1 | 6 => 0 | 7 => 0
  | 8 => 0 | 9 => 0 | 10 => 1 | 11 => 0
  | 12 => x | 13 => y | 14 => z | 15 => 1
  | _ => 0

/-- Transliteration of `mat4perspective` (lines 164-171), with the local
`f = 1/tan(vfov/2)` inlined. -/
def mat4perspective (vfov aspect znear zfar : ℝ) : Mat := fun i =>
  match i.val with
  | 0 => (1 / Real.tan (vfov / 2)) / aspect | 1 => 0 | 2 => 0 | 3 => 0
  | 4 => 0 | 5 => 1 / Real.tan (vfov / 2) | 6 => 0 | 7 => 0
  | 8 => 0 | 9 => 0 | 10 => -((zfar + znear) / (zfar - znear)) | 11 => -1
  | 12 => 0 | 13 => 0 | 14 => -((2 * znear * zfar) / (zfar - znear)) | 15 => 0
  | _ => 0

/-- Application of a column-major matrix to a column vector under the
convention `v' = M * v` used by the shader boundary (row r of the result
is the dot product of row r of `m` with `v`). -/
def applyMat (m : Mat) (v : Vec4) : Vec4 := fun r =>
  match r.val with
  | 0 => m 0 * v 0 + m 4 * v 1 + m 8 * v 2 + m 12 * v 3
  | 1 => m 1 * v 0 + m 5 * v 1 + m 9 * v 2 + m 13 * v 3
  | 2 => m 2 * v 0 + m 6 * v 1 + m 10 * v 2 + m 14 * v 3
  | 3 => m 3 * v 0 + m 7 * v 1 + m 11 * v 2 + m 15 * v 3
  | _ => 0

/-- Literal 4-component column vector. -/
def vec4 (x y z w : ℝ) : Vec4 := fun r =>
  match r.val with
  | 0 => x | 1 => y | 2 => z | 3 => w
  | _ => 0

/-- Flat column-major index of column `c`, row `r`. -/
def finIdx (c r : Fin 4) : Fin 16 := ⟨c.val * 4 + r.val, by omega⟩

/-- Clip-space z after the perspective divide: the z component of `m * v`
divided by the w component. -/
def perspectiveDivideZ (m : Mat) (v : Vec4) : ℝ :=
  applyMat m v 2 / applyMat m v 3

/-- Keyboard orientation matrix of the render loop (line 401):
`mat4mult(mat4rotz(-phi), mat4rotx(-theta))`. -/
def matKey (phiKey thetaKey : ℝ) : Mat :=
  mat4mult (mat4rotz (-phiKey)) (mat4rotx (-thetaKey))

/-- Mouse orientation matrix of the render loop (line 403):
`mat4mult(mat4rotz(phi), mat4rotx(-theta))`. -/
def matMouse (phiMouse thetaMouse : ℝ) : Mat :=
  mat4mult (mat4rotz phiMouse) (mat4rotx (-thetaMouse))

/-- The loop's `vTranslate` (line 406): `mat4translate(0, 0, -3)`. -/
def vTranslate : Mat := mat4translate 0 0 (-3)

/-- The loop's first `vRot` (line 407): `mat4rotx(10*(M_PI/100))`. -/
def vRotPrimary : Mat := mat4rotx (10 * (Real.pi / 100))

/-- Model-view matrix of the primary (trex) object (line 409):
`mat4mult(mat4mult(mat4mult(vTranslate, mat4roty(1)), vRot), matKey)`. -/
def rSpinPrimary (phiKey thetaKey : ℝ) : Mat :=
  mat4mult (mat4mult (mat4mult vTranslate (mat4roty 1)) vRotPrimary)
    (matKey phiKey thetaKey)

/-- The loop's second `vRot` (line 417): `mat4rotx(5*(M_PI/100))`. -/
def vRotOrbit : Mat := mat4rotx (5 * (Real.pi / 100))

/-- The loop's `vOrbit` (line 418): `mat4roty(time/4*M_PI)`. -/
def vOrbit (time : ℝ) : Mat := mat4roty (time / 4 * Real.pi)

/-- The loop's `cT` (line 419): `mat4translate(0, 0, 0.8)`. -/
def cT : Mat := mat4translate 0 0 0.8

/-- The loop's `matO` (line 421): `mat4mult(mat4mult(vOrbit, cT), vRot)`. -/
def matO (time : ℝ) : Mat := mat4mult (mat4mult (vOrbit time) cT) vRotOrbit

/-- Model-view matrix of the second (orbiting sphere) object (line 423):
`mat4mult(mat4mult(mat4mult(vTranslate, mat4roty(time/4*M_PI)), vRot), matO)`. -/
def rSpinOrbit (time : ℝ) : Mat :=
  mat4mult (mat4mult (mat4mult vTranslate (mat4roty (time / 4 * Real.pi)))
    vRotOrbit) (matO time)

/-- The loop's `Ilumination` matrix (line 432):
`mat4mult(matMouse, mat4identity())`. -/
def Ilumination (phiMouse thetaMouse : ℝ) : Mat :=
  mat4mult (matMouse phiMouse thetaMouse) mat4identity

/-- Per-frame projection matrix (line 437).  The render loop reads the
current window size into `width`/`height` for the viewport, but the call
`mat4perspective(M_PI/3.0, 1.0f, 0.1f, 100.0f)` passes the literal aspect
`1.0f`; the current window aspect (the parameter here) is never used. -/
def frameProjection (winAspect : ℝ) : Mat :=
  mat4perspective (Real.pi / 3) 1 0.1 100

/-- All matrices one frame of the render loop produces, as a pure function
of the frame inputs: elapsed time, key angles, mouse angles and the
current window aspect ratio. -/
def frameMatrices (time phiKey thetaKey phiMouse thetaMouse winAspect : ℝ) :
    Mat × Mat × Mat × Mat :=
  (rSpinPrimary phiKey thetaKey, rSpinOrbit time,
    Ilumination phiMouse thetaMouse, frameProjection winAspect)

/-- Modelled from the spec: a matrix that is the identity except for
translation terms `x`, `y`, `z` at flat indices 12, 13, 14 (column 3);
stated from the spec's words for comparison against `mat4translate`. -/
def translateSpec (x y z : ℝ) : Mat := fun i =>
  if i = 12 then x else if i = 13 then y else if i = 14 then z
  else mat4identity i

/-- Bottom row (row 3) of a column-major matrix is `(0, 0, 0, 1)`: flat
indices 3, 7, 11 are zero and flat index 15 is one. -/
def affineBottom (m : Mat) : Prop :=
  m 3 = 0 ∧ m 7 = 0 ∧ m 11 = 0 ∧ m 15 = 1

theorem mat4mult_assoc (a b c : Mat) :
    mat4mult (mat4mult a b) c = mat4mult a (mat4mult b c) := by
  funext i
  fin_cases i <;> simp [mat4mult] <;> ring

theorem mat4mult_id_left (m : Mat) : mat4mult mat4identity m = m := by
  funext i
  fin_cases i <;> simp [mat4mult, mat4identity]

theorem mat4mult_id_right (m : Mat) : mat4mult m mat4identity = m := by
  funext i
  fin_cases i <;> simp [mat4mult, mat4identity]

theorem mat4rotx_zero : mat4rotx 0 = mat4identity := by
  funext i
  fin_cases i <;> simp [mat4rotx, mat4identity]

theorem mat4rotz_zero : mat4rotz 0 = mat4identity := by
  funext i
  fin_cases i <;> simp [mat4rotz, mat4identity]

/-- C1: `mat4mult` computes the standard 4x4 matrix product in
column-major layout: the result entry at flat index c*4+r equals the sum
over k of `a (k*4+r) * b (c*4+k)`, i.e. column i of the result equals `a`
applied to column i of `b`. -/
theorem claim_C1 (a b : Mat) (c r : Fin 4) :
    mat4mult a b (finIdx c r) = ∑ k : Fin 4, a (finIdx k r) * b (finIdx c k) := by
  fin_cases c <;> fin_cases r <;>
    simp [mat4mult, finIdx, Fin.sum_univ_four] <;> rfl

/-- C6: multiplying by `mat4identity` on either side returns the other
matrix exactly (in the real-valued embedding, each entry reduces to the
original entry by multiplications with 1 and 0 only). -/
theorem claim_C6 (M : Mat) :
    mat4mult mat4identity M = M ∧ mat4mult M mat4identity = M :=
  ⟨mat4mult_id_left M, mat4mult_id_right M⟩

/-- C7: `mat4rotz θ` applied to the column vector `(1,0,0,1)` under the
convention `v' = M * v` yields `(cos θ, sin θ, 0, 1)`, fixing the
plus-sine sign convention of the source. -/
theorem claim_C7 (θ : ℝ) :
    applyMat (mat4rotz θ) (vec4 1 0 0 1) = vec4 (Real.cos θ) (Real.sin θ) 0 1 := by
  funext r
  fin_cases r <;> simp [applyMat, mat4rotz, vec4]

/-- C8: `mat4translate x y z` is the identity with translation terms
`x`, `y`, `z` at flat indices 12, 13, 14; applied to `(0,0,0,1)` it
yields `(x,y,z,1)`, and applied to any `(a,b,c,w)` it yields
`(a + w*x, b + w*y, c + w*z, w)`. -/
theorem claim_C8 (x y z : ℝ) :
    mat4translate x y z = translateSpec x y z ∧
    applyMat (mat4translate x y z) (vec4 0 0 0 1) = vec4 x y z 1 ∧
    ∀ a b c w : ℝ, applyMat (mat4translate x y z) (vec4 a b c w) =
      vec4 (a + w * x) (b + w * y) (c + w * z) w := by
  refine ⟨?_, ?_, ?_⟩
  · funext i
    fin_cases i <;> simp [mat4translate, translateSpec, mat4identity]
  · funext r
    fin_cases r <;> simp [applyMat, mat4translate, vec4]
  · intro a b c w
    funext r
    fin_cases r <;> simp [applyMat, mat4translate, vec4] <;> ring

/-- C9: every generator of the algebra has bottom row `(0,0,0,1)` (flat
indices 3, 7, 11 zero, flat index 15 one), and `mat4mult` preserves this
property, so every composed model-view matrix is affine. -/
theorem claim_C9 :
    affineBottom mat4identity ∧
    (∀ θ : ℝ, affineBottom (mat4rotx θ) ∧ affineBottom (mat4roty θ) ∧
      affineBottom (mat4rotz θ)) ∧
    (∀ s : ℝ, affineBottom (mat4scale s)) ∧
    (∀ x y z : ℝ, affineBottom (mat4translate x y z)) ∧
    (∀ a b : Mat, affineBottom a → affineBottom b →
      affineBottom (mat4mult a b)) := by
  refine ⟨?_, ?_, ?_, ?_, ?_⟩
  · exact ⟨rfl, rfl, rfl, rfl⟩
  · intro θ
    exact ⟨⟨rfl, rfl, rfl, rfl⟩, ⟨rfl, rfl, rfl, rfl⟩, ⟨rfl, rfl, rfl, rfl⟩⟩
  · intro s
    exact ⟨rfl, rfl, rfl, rfl⟩
  · intro x y z
    exact ⟨rfl, rfl, rfl, rfl⟩
  · rintro a b ⟨ha3, ha7, ha11, ha15⟩ ⟨hb3, hb7, hb11, hb15⟩
    refine ⟨?_, ?_, ?_, ?_⟩ <;>
      simp [mat4mult, ha3, ha7, ha11, ha15, hb3, hb7, hb11, hb15]

/-- C9 witness: the product of two concrete affine matrices (the identity
with itself) again has bottom row `(0,0,0,1)`. -/
theorem claim_C9_witness : affineBottom (mat4mult mat4identity mat4identity) :=
  claim_C9.2.2.2.2 mat4identity mat4identity ⟨rfl, rfl, rfl, rfl⟩
    ⟨rfl, rfl, rfl, rfl⟩

/-- C10: composing two translations multiplies to the translation by the
componentwise sums, exactly in the real-valued embedding. -/
theorem claim_C10 (a b c d e f : ℝ) :
    mat4mult (mat4translate a b c) (mat4translate d e f) =
      mat4translate (a + d) (b + e) (c + f) := by
  funext i
  fin_cases i <;> simp [mat4mult, mat4translate] <;> ring

/-- C2: the primary object's model-view matrix is the composition
`translate(0,0,-3) * rotateY(1) * rotateX(10*pi/100) * keyOrientation`
(stated in right-associated form, so the grouping the source uses is the
stated left-to-right order), and at `phiKey = 0, thetaKey = 0` it equals
`translate(0,0,-3) * rotateY(1) * rotateX(10*pi/100) * identity`. -/
theorem claim_C2 (phiKey thetaKey : ℝ) :
    rSpinPrimary phiKey thetaKey =
      mat4mult (mat4translate 0 0 (-3)) (mat4mult (mat4roty 1)
        (mat4mult (mat4rotx (10 * (Real.pi / 100))) (matKey phiKey thetaKey))) ∧
    rSpinPrimary 0 0 =
      mat4mult (mat4mult (mat4mult (mat4translate 0 0 (-3)) (mat4roty 1))
        (mat4rotx (10 * (Real.pi / 100)))) mat4identity := by
  constructor
  · unfold rSpinPrimary vTranslate vRotPrimary
    rw [mat4mult_assoc, mat4mult_assoc]
  · unfold rSpinPrimary matKey vTranslate vRotPrimary
    simp only [neg_zero, mat4rotz_zero, mat4rotx_zero, mat4mult_id_left]

/-- C3: the orbiting object's model-view matrix is the composition
`translate(0,0,-3) * rotateY(t/4*pi) * rotateX(5*pi/100) * orbitMatrix`
with `orbitMatrix = rotateY(t/4*pi) * translate(0,0,0.8) * rotateX(5*pi/100)`
(both stated in right-associated form). -/
theorem claim_C3 (t : ℝ) :
    rSpinOrbit t =
      mat4mult (mat4translate 0 0 (-3)) (mat4mult (mat4roty (t / 4 * Real.pi))
        (mat4mult (mat4rotx (5 * (Real.pi / 100))) (matO t))) ∧
    matO t = mat4mult (mat4roty (t / 4 * Real.pi))
      (mat4mult (mat4translate 0 0 0.8) (mat4rotx (5 * (Real.pi / 100)))) := by
  constructor
  · unfold rSpinOrbit vTranslate vRotOrbit
    rw [mat4mult_assoc, mat4mult_assoc]
  · unfold matO vOrbit cT vRotOrbit
    rw [mat4mult_assoc]

/-- C4: under `far > near > 0` and `0 < fov < pi`, the perspective matrix
maps the on-axis view-space point at `z = -near` to clip-space `z' = -1`
after the perspective divide, and the point at `z = -far` to `z' = 1`. -/
theorem claim_C4 (vfov aspect znear zfar : ℝ) (h1 : 0 < znear)
    (h2 : znear < zfar) (h3 : 0 < vfov) (h4 : vfov < Real.pi) :
    perspectiveDivideZ (mat4perspective vfov aspect znear zfar)
      (vec4 0 0 (-znear) 1) = -1 ∧
    perspectiveDivideZ (mat4perspective vfov aspect znear zfar)
      (vec4 0 0 (-zfar) 1) = 1 := by
  have hz : znear ≠ 0 := ne_of_gt h1
  have hf : zfar ≠ 0 := ne_of_gt (h1.trans h2)
  have hd : zfar - znear ≠ 0 := sub_ne_zero.mpr (ne_of_gt h2)
  constructor <;>
  · simp only [perspectiveDivideZ, applyMat, mat4perspective, vec4]
    field_simp
    ring

/-- C4 witness: the perspective preconditions hold at
`(pi/2, 1, 1, 2)`, and there the points at view-space `z = -1` and
`z = -2` map to clip-space `-1` and `1` after the divide. -/
theorem claim_C4_witness :
    ((0 : ℝ) < 1 ∧ (1 : ℝ) < 2 ∧ 0 < Real.pi / 2 ∧ Real.pi / 2 < Real.pi) ∧
    (perspectiveDivideZ (mat4perspective (Real.pi / 2) 1 1 2)
      (vec4 0 0 (-1) 1) = -1 ∧
    perspectiveDivideZ (mat4perspective (Real.pi / 2) 1 1 2)
      (vec4 0 0 (-2) 1) = 1) :=
  ⟨⟨by norm_num, by norm_num, by positivity, by linarith [Real.pi_pos]⟩,
    claim_C4 (Real.pi / 2) 1 1 2 (by norm_num) (by norm_num) (by positivity)
      (by linarith [Real.pi_pos])⟩

/-- C5 counterexample: with the same time and angles, supplying window
aspect 2 in one frame and 1 in the next produces identical projection
matrices — the frame's projection ignores the current window aspect
(line 437 passes the literal `1.0f`), even though `mat4perspective`
itself does depend on its aspect argument at flat index 0. -/
theorem claim_C5_counterexample :
    frameProjection 2 = frameProjection 1 ∧
    mat4perspective (Real.pi / 3) 2 0.1 100 0 ≠
      mat4perspective (Real.pi / 3) 1 0.1 100 0 := by
  constructor
  · rfl
  · have ht : 0 < Real.tan (Real.pi / 3 / 2) := by
      apply Real.tan_pos_of_pos_of_lt_pi_div_two
      · positivity
      · linarith [Real.pi_pos]
    have hf : 0 < 1 / Real.tan (Real.pi / 3 / 2) := by positivity
    show (1 / Real.tan (Real.pi / 3 / 2)) / 2 ≠
      (1 / Real.tan (Real.pi / 3 / 2)) / 1
    rw [div_one]
    intro h
    linarith

/-- C5 amended: the composer recomputes the projection each frame but
from the fixed literal aspect 1.0, so changing the window aspect ratio
between two frames (time and all angles unchanged) leaves every output
of the frame — the projection and all model-view matrices — identical;
`mat4perspective` itself depends on its aspect argument only at flat
index 0. -/
theorem claim_C5_amended :
    (∀ t pk tk pm tm a a' : ℝ,
      frameMatrices t pk tk pm tm a = frameMatrices t pk tk pm tm a') ∧
    (∀ vfov aspect aspect' znear zfar : ℝ, ∀ i : Fin 16, i ≠ 0 →
      mat4perspective vfov aspect znear zfar i =
        mat4perspective vfov aspect' znear zfar i) := by
  constructor
  · intro t pk tk pm tm a a'
    rfl
  · intro vfov aspect aspect' znear zfar i hi
    fin_cases i
    · exact absurd rfl hi
    all_goals rfl

/-- C5 witness: at flat index 5 (which is not index 0), the perspective
matrices for aspects 2 and 1 agree. -/
theorem claim_C5_witness :
    ((5 : Fin 16) ≠ 0) ∧
    mat4perspective (Real.pi / 3) 2 0.1 100 5 =
      mat4perspective (Real.pi / 3) 1 0.1 100 5 :=
  ⟨by decide,
    claim_C5_amended.2 (Real.pi / 3) 2 1 0.1 100 5 (by decide)⟩
